import Mathlib

/-!
Shallow embedding of the rust-6502-sim emulator core: the processor micro-op
machine (`src/processor.rs`), the byte memory device (`src/memory.rs`) and the
simple bus (`src/bus.rs`).  Machine integers (`Address` = u16, `Data` = u8) are
modelled as `Nat`, with `% 2 ^ 16` written out where u16 arithmetic wraps.
Rust panics (`panic!`, `todo!`, debug-mode integer underflow) are modelled as
`Except.error` carrying the panic message; normal returns are `Except.ok`.
-/

namespace Sim6502

/-- `pub type Address = u16` from `src/bus.rs`. -/
abbrev Address := Nat

/-- `pub type Data = u8` from `src/bus.rs`. -/
abbrev Data := Nat

/-- `enum DataRegister` from `src/processor.rs`. -/
inductive DataRegister where
  | X
  | Y
  | A
  | InternalOperand
deriving DecidableEq, Repr

/-- `enum AddressRegister` from `src/processor.rs`. -/
inductive AddressRegister where
  | PC
  | InternalAddress
deriving DecidableEq, Repr

/-- `enum Function` from `src/processor.rs` (the ALU function selectors). -/
inductive Function where
  | OR
  | AND
  | EOR
  | AddWithCarry
  | COMPARE
  | SubtractWithBorrow
deriving DecidableEq, Repr

/-- `enum InternalOperations` from `src/processor.rs` (the micro-ops). -/
inductive InternalOperations where
  | NOP
  | BRK
  | ReadAddressLo
  | ReadAddressHi
  | IncrementPCBySignedOperand
  | IncrementAddressByReg (reg : DataRegister)
  | DummyForOverlap
  | FetchOpcode
  | FetchOperand
  | FetchAddrLo
  | FetchAddrHi
  | FetchImmediateOperand
  | FetchZeroPageAddr
  | CompareToRegister (src : DataRegister) (reg2 : DataRegister)
  | StoreToRegister (src : DataRegister) (dst : DataRegister)
  | WriteToAddress (src : DataRegister) (addr : AddressRegister)
  | ComputeAndStore (left : DataRegister) (dst : DataRegister) (func : Function)
  | JumpToAddress
  | ReadFromAccumulator
  | AddIndexLo
  | AluIncr
deriving DecidableEq, Repr

/-- `enum AddressingMode` from `src/processor.rs`. -/
inductive AddressingMode where
  | Accumulator
  | Absolute
  | AbsIndexed (reg : DataRegister)
  | Immediate
  | Implied
  | Indirect
  | IndexedIndirect
  | IndirectIndexed
  | Relative
  | ZeroPage
  | ZeroPageIndexed (reg : DataRegister)
deriving DecidableEq, Repr

/-- `struct Instruction` from `src/processor.rs`. -/
structure Instruction where
  mnemonic : String
  operations : List InternalOperations
  addressing : AddressingMode
deriving DecidableEq, Repr

open DataRegister AddressRegister Function InternalOperations AddressingMode

/-- `fetch_operations_for_mode` from `src/processor.rs`: the fixed fetch
micro-op prefix of each addressing mode. -/
def fetch_operations_for_mode (mode : AddressingMode) : List InternalOperations :=
  match mode with
  | Accumulator => []
  | Absolute => [FetchAddrLo, FetchAddrHi]
  | AbsIndexed reg => [FetchAddrLo, FetchAddrHi, IncrementAddressByReg reg]
  | Immediate => [FetchImmediateOperand]
  | Implied => []
  | Indirect => [FetchAddrLo, FetchAddrHi, ReadAddressLo, ReadAddressHi]
  | IndexedIndirect => []
  | IndirectIndexed => []
  | Relative => [FetchOperand, IncrementPCBySignedOperand]
  | ZeroPage => [FetchZeroPageAddr]
  | ZeroPageIndexed reg => [FetchZeroPageAddr, IncrementAddressByReg reg]

/-- `create_instruction_for_mode` from `src/processor.rs`. -/
def create_instruction_for_mode (opcode : Nat) (mnemonic : String)
    (mode : AddressingMode) (operations : List InternalOperations) :
    Nat × Instruction :=
  (opcode,
   { mnemonic := mnemonic
     operations := fetch_operations_for_mode mode ++ operations
     addressing := mode })

/-- `create_instructions` from `src/processor.rs`: loops `b` over `0..7`
(exclusive of 7, as in the Rust `for b in 0..7`), builds opcode
`base_opcode | b_mask & (b << 2)` with `b_mask = 0b00011100` for each mode
slot that is populated.  The `println!` trace is omitted (no semantics). -/
def create_instructions (base_opcode : Nat) (mnemonic : String)
    (modes : List (Option AddressingMode))
    (opcode_operations : List InternalOperations) : List (Nat × Instruction) :=
  (List.range 7).filterMap fun b =>
    match modes[b]? with
    | some (some mode) =>
        some (Nat.lor base_opcode (Nat.land 0x1C (Nat.shiftLeft b 2)),
              { mnemonic := mnemonic
                operations := fetch_operations_for_mode mode ++ opcode_operations
                addressing := mode })
    | _ => none

/-- `make` from `src/processor.rs`: the semantic micro-op list of an
accumulator ALU instruction. -/
def make (f : Function) : List InternalOperations :=
  [ComputeAndStore A A f]

/-- The `fam0` mode table from `create6502` in `src/processor.rs`. -/
def fam0 : List (Option AddressingMode) :=
  [some Immediate, some ZeroPage, none, some Absolute, none,
   some (ZeroPageIndexed X), none, some (AbsIndexed X)]

/-- The `fam1` mode table from `create6502` in `src/processor.rs`. -/
def fam1 : List (Option AddressingMode) :=
  [some IndirectIndexed, some ZeroPage, some Immediate, some Absolute, none,
   some (ZeroPageIndexed X), none, some (AbsIndexed X)]

/-- The `fam2_y` mode table from `create6502` in `src/processor.rs`. -/
def fam2_y : List (Option AddressingMode) :=
  [some Immediate, some ZeroPage, none, some Absolute, none,
   some (ZeroPageIndexed Y), none, some (AbsIndexed Y)]

/-- `map_o_instructions`: the instruction table built inside `create6502` in
`src/processor.rs`, as an association list in insertion order.  The Rust
`HashMap` lookup agrees with first-match association-list lookup because the
built opcodes are pairwise distinct (see `map_o_instructions_keys_nodup`). -/
def map_o_instructions : List (Nat × Instruction) :=
  [create_instruction_for_mode 0xEA "NOP" Implied [NOP],
   create_instruction_for_mode 0x00 "BRK" Implied [BRK]]
  ++ create_instructions 0x80 "STY" fam0 [WriteToAddress Y InternalAddress]
  ++ create_instructions 0xA0 "LDY" fam0 [StoreToRegister InternalOperand Y]
  ++ create_instructions 0xC0 "CPY" fam0 [CompareToRegister InternalOperand Y]
  ++ create_instructions 0xE0 "CPX" fam0 [CompareToRegister InternalOperand X]
  ++ create_instructions 0x01 "ORA" fam1 (make OR)
  ++ create_instructions 0x21 "AND" fam1 (make AND)
  ++ create_instructions 0x41 "EOR" fam1 (make EOR)
  ++ create_instructions 0x61 "ADC" fam1 (make AddWithCarry)
  ++ create_instructions 0x81 "STA" fam1 [WriteToAddress A InternalAddress]
  ++ create_instructions 0xA1 "LDA" fam1 [StoreToRegister InternalOperand A]
  ++ create_instructions 0xC1 "CMP" fam1 (make COMPARE)
  ++ create_instructions 0xE1 "SBC" fam1 (make SubtractWithBorrow)
  ++ create_instructions 0xA2 "LDX" fam2_y [StoreToRegister InternalOperand X]

/-- `struct Proc6502` from `src/processor.rs`.  The `instructions` HashMap is
an association list (keys are pairwise distinct). -/
structure Proc6502 where
  pc : Address
  x : Data
  y : Data
  a : Data
  internal_address : Address
  internal_operand : Data
  at_break : Bool
  overflow : Bool
  carry : Bool
  status : Data
  operation_stream : List InternalOperations
  instructions : List (Nat × Instruction)
  total_cycles : Nat
  boot_cycles : Nat
deriving DecidableEq, Repr

/-- `create6502` from `src/processor.rs`: initial register file, the boot
micro-sequence `[FetchAddrLo, FetchAddrHi, JumpToAddress]` primed in the
operation stream, PC at the boot location `0x0FFC`, and `boot_cycles` set to
the length of that primed stream. -/
def create6502 : Proc6502 :=
  let boot_stream : List InternalOperations := [FetchAddrLo, FetchAddrHi, JumpToAddress]
  { pc := 0x0FFC
    x := 0
    y := 0
    a := 0
    internal_address := 0
    internal_operand := 0
    at_break := false
    overflow := false
    carry := false
    status := 0
    operation_stream := boot_stream
    instructions := map_o_instructions
    total_cycles := 0
    boot_cycles := boot_stream.length }

/-- `Proc6502::set_reg` from `src/processor.rs`. -/
def set_reg (p : Proc6502) (reg : DataRegister) (value : Data) : Proc6502 :=
  match reg with
  | X => { p with x := value }
  | Y => { p with y := value }
  | A => { p with a := value }
  | InternalOperand => { p with internal_operand := value }

/-- `Proc6502::get_reg` from `src/processor.rs`. -/
def get_reg (p : Proc6502) (reg : DataRegister) : Data :=
  match reg with
  | X => p.x
  | Y => p.y
  | A => p.a
  | InternalOperand => p.internal_operand

/-- `Proc6502::get_addr_reg` from `src/processor.rs`. -/
def get_addr_reg (p : Proc6502) (reg : AddressRegister) : Address :=
  match reg with
  | PC => p.pc
  | InternalAddress => p.internal_address

/-- `Proc6502::get_user_cycles` from `src/processor.rs`: total cycles minus
boot cycles, saturating at 0 (the explicit early return). -/
def get_user_cycles (p : Proc6502) : Nat :=
  if p.total_cycles < p.boot_cycles then 0
  else p.total_cycles - p.boot_cycles

/-- `struct Memory` from `src/memory.rs`.  The backing `HashMap<Address, Data>`
keyed by offset is modelled as a partial function from offsets to bytes. -/
structure Memory where
  lower_bound : Address
  upper_bound : Address
  mem : Nat → Option Data

/-- `Memory::do_read` from `src/memory.rs`: `mem.get(&(address - lower_bound))`
with default 0.  In Rust the offset is computed in u16 arithmetic, so an
address below `lower_bound` underflows (a debug-build panic), modelled as the
error branch. -/
def Memory.do_read (m : Memory) (address : Address) : Except String Data :=
  if address < m.lower_bound then
    Except.error "attempt to subtract with overflow"
  else
    Except.ok ((m.mem (address - m.lower_bound)).getD 0)

/-- `Memory::do_write` from `src/memory.rs`: `mem.insert(address - lower_bound,
data)`, with the same u16 underflow branch as `Memory.do_read`. -/
def Memory.do_write (m : Memory) (address : Address) (data : Data) :
    Except String Memory :=
  if address < m.lower_bound then
    Except.error "attempt to subtract with overflow"
  else
    Except.ok { m with mem := fun k =>
      if k = address - m.lower_bound then some data else m.mem k }

/-- `Memory::is_readable_for` from `src/memory.rs`: inclusive range test. -/
def Memory.is_readable_for (m : Memory) (address : Address) : Bool :=
  decide (m.lower_bound ≤ address) && decide (address ≤ m.upper_bound)

/-- `Memory::is_writable_for` from `src/memory.rs`: inclusive range test. -/
def Memory.is_writable_for (m : Memory) (address : Address) : Bool :=
  decide (m.lower_bound ≤ address) && decide (address ≤ m.upper_bound)

/-- `Memory::new` from `src/memory.rs`: empty backing map. -/
def Memory.new (start finish : Address) : Memory :=
  { lower_bound := start, upper_bound := finish, mem := fun _ => none }

/-- Bulk `Memory::write` from `src/memory.rs`: writes the bytes sequentially,
address auto-incrementing (u16 increment, hence `% 2 ^ 16`). -/
def Memory.write (m : Memory) (start : Address) (data : List Data) :
    Except String Memory :=
  match data with
  | [] => Except.ok m
  | d :: rest =>
      match m.do_write start d with
      | Except.error e => Except.error e
      | Except.ok m2 => m2.write ((start + 1) % 65536) rest

/-- A registered bus device.  The Rust bus stores `dyn BusDevice` trait
objects; the devices that programs register are `Memory` (from
`src/memory.rs`) and the processor itself, whose `BusDevice` impl in
`src/processor.rs` refuses every access (`is_readable_for`/`is_writable_for`
are `false`, `do_read`/`do_write` panic), so the `cpu` node needs no payload. -/
inductive Device where
  | mem (m : Memory)
  | cpu

/-- `do_read` dispatch over the registered device kinds: `Memory::do_read`, or
the `panic!("I can not be read from")` of `Proc6502`. -/
def Device.do_read (d : Device) (address : Address) : Except String Data :=
  match d with
  | Device.mem m => m.do_read address
  | Device.cpu => Except.error "I can not be read from"

/-- `do_write` dispatch over the registered device kinds: `Memory::do_write`,
or the `panic!("I can not be written to")` of `Proc6502`. -/
def Device.do_write (d : Device) (address : Address) (data : Data) :
    Except String Device :=
  match d with
  | Device.mem m =>
      match m.do_write address data with
      | Except.error e => Except.error e
      | Except.ok m2 => Except.ok (Device.mem m2)
  | Device.cpu => Except.error "I can not be written to"

/-- `is_readable_for` dispatch over the registered device kinds. -/
def Device.is_readable_for (d : Device) (address : Address) : Bool :=
  match d with
  | Device.mem m => m.is_readable_for address
  | Device.cpu => false

/-- `is_writable_for` dispatch over the registered device kinds. -/
def Device.is_writable_for (d : Device) (address : Address) : Bool :=
  match d with
  | Device.mem m => m.is_writable_for address
  | Device.cpu => false

/-- `struct SimpleBus` from `src/bus.rs`: the ordered list of registered
devices. -/
structure SimpleBus where
  registered : List Device

/-- The loop body of `SimpleBus::read` from `src/bus.rs`: scan the registered
devices in order and return `do_read` of the first one whose
`is_readable_for` holds; `0x0` if none matches. -/
def busReadLoop (devs : List Device) (address : Address) : Except String Data :=
  match devs with
  | [] => Except.ok 0x0
  | d :: rest =>
      if d.is_readable_for address then d.do_read address
      else busReadLoop rest address

/-- The loop body of `SimpleBus::write` from `src/bus.rs`: invoke `do_write`
on every registered device whose `is_writable_for` holds, in order. -/
def busWriteLoop (devs : List Device) (address : Address) (data : Data) :
    Except String (List Device) :=
  match devs with
  | [] => Except.ok []
  | d :: rest =>
      if d.is_writable_for address then
        match d.do_write address data with
        | Except.error e => Except.error e
        | Except.ok d2 =>
            match busWriteLoop rest address data with
            | Except.error e => Except.error e
            | Except.ok rest2 => Except.ok (d2 :: rest2)
      else
        match busWriteLoop rest address data with
        | Except.error e => Except.error e
        | Except.ok rest2 => Except.ok (d :: rest2)

/-- `SimpleBus::read` from `src/bus.rs`. -/
def SimpleBus.read (bus : SimpleBus) (address : Address) : Except String Data :=
  busReadLoop bus.registered address

/-- `SimpleBus::write` from `src/bus.rs` (state-passing: returns the bus with
every written device updated). -/
def SimpleBus.write (bus : SimpleBus) (address : Address) (data : Data) :
    Except String SimpleBus :=
  match busWriteLoop bus.registered address data with
  | Except.error e => Except.error e
  | Except.ok devs => Except.ok { registered := devs }

/-- `SimpleBus::register_device` from `src/bus.rs`: append. -/
def SimpleBus.register_device (bus : SimpleBus) (d : Device) : SimpleBus :=
  { registered := bus.registered ++ [d] }

/-- `self.instructions.get(&opcode)` from the `FetchOpcode` arm of
`Proc6502::tick`: association-list lookup. -/
def lookupInstruction (table : List (Nat × Instruction)) (opcode : Nat) :
    Option Instruction :=
  (table.find? fun kv => kv.1 == opcode).map fun kv => kv.2

/-- The `match x` body of `Proc6502::tick` from `src/processor.rs`, executing
one already-dequeued micro-op against the bus.  `p` is the processor state
after the dequeue; panics (`panic!`/`todo!`) are the error results; the
silently empty Rust arms are the arms returning `p` unchanged. -/
def executeOp (x : InternalOperations) (p : Proc6502) (the_bus : SimpleBus) :
    Except String (Proc6502 × SimpleBus) :=
  match x with
  | NOP => Except.ok (p, the_bus)
  | BRK => Except.ok ({ p with at_break := true }, the_bus)
  | DummyForOverlap => Except.ok (p, the_bus)
  | FetchOpcode =>
      match the_bus.read p.pc with
      | Except.error e => Except.error e
      | Except.ok opcode =>
          match lookupInstruction p.instructions opcode with
          | some instruction =>
              Except.ok ({ p with
                operation_stream := p.operation_stream ++ instruction.operations,
                pc := (p.pc + 1) % 65536 }, the_bus)
          | none => Except.error "No definition for opcode"
  | FetchOperand =>
      match the_bus.read p.internal_address with
      | Except.error e => Except.error e
      | Except.ok d => Except.ok ({ p with internal_operand := d }, the_bus)
  | FetchAddrLo =>
      let p1 := { p with internal_address := Nat.land p.internal_address 0xFF00 }
      match the_bus.read p1.pc with
      | Except.error e => Except.error e
      | Except.ok d =>
          Except.ok ({ p1 with internal_address := d, pc := (p1.pc + 1) % 65536 },
                     the_bus)
  | FetchAddrHi =>
      let p1 := { p with internal_address := Nat.land p.internal_address 0x00FF }
      match the_bus.read p1.pc with
      | Except.error e => Except.error e
      | Except.ok d =>
          Except.ok ({ p1 with
            internal_address := Nat.lor p1.internal_address (Nat.shiftLeft d 8),
            pc := (p1.pc + 1) % 65536 }, the_bus)
  | FetchImmediateOperand =>
      match the_bus.read p.pc with
      | Except.error e => Except.error e
      | Except.ok d =>
          Except.ok ({ p with internal_operand := d, pc := (p.pc + 1) % 65536 },
                     the_bus)
  | WriteToAddress src addr =>
      match the_bus.write (get_addr_reg p addr) (get_reg p src) with
      | Except.error e => Except.error e
      | Except.ok bus2 => Except.ok (p, bus2)
  | JumpToAddress => Except.ok ({ p with pc := p.internal_address }, the_bus)
  | CompareToRegister _ _ => Except.error "not yet implemented"
  | ReadFromAccumulator => Except.ok (p, the_bus)
  | AddIndexLo => Except.ok (p, the_bus)
  | AluIncr => Except.ok (p, the_bus)
  | IncrementAddressByReg reg =>
      Except.ok ({ p with
        internal_address := (p.internal_address + get_reg p reg) % 65536 },
        the_bus)
  | FetchZeroPageAddr =>
      let p1 := { p with internal_address := Nat.land p.internal_address 0x0000 }
      match the_bus.read p1.pc with
      | Except.error e => Except.error e
      | Except.ok d =>
          Except.ok ({ p1 with internal_address := d, pc := (p1.pc + 1) % 65536 },
                     the_bus)
  | IncrementPCBySignedOperand => Except.ok (p, the_bus)
  | ReadAddressLo => Except.ok (p, the_bus)
  | ReadAddressHi => Except.ok (p, the_bus)
  | StoreToRegister src dst =>
      Except.ok (set_reg p dst (get_reg p src), the_bus)
  | ComputeAndStore _ dst func =>
      match func with
      | OR => Except.error "not yet implemented"
      | AND => Except.error "not yet implemented"
      | EOR => Except.error "not yet implemented"
      | AddWithCarry =>
          let sum := p.a + p.internal_operand + (if p.carry then 1 else 0)
          let result := sum % 256
          let carry := decide (256 ≤ sum)
          let overflow :=
            Nat.land (Nat.land (Nat.xor p.a result) (Nat.xor p.internal_operand result)) 0x80 != 0
          Except.ok (set_reg { p with carry := carry, overflow := overflow } dst result,
                     the_bus)
      | COMPARE => Except.error "not yet implemented"
      | SubtractWithBorrow => Except.error "not yet implemented"

/-- `Proc6502::tick` from `src/processor.rs`: bump the total-cycle counter,
refill the queue with one `FetchOpcode` when it is found empty, dequeue the
front micro-op, execute it, and return the pair `(self.pc, self.at_break)`
alongside the updated state.  The `[]` fallthrough models `Vec::remove(0)` on
an empty vector and is unreachable after the refill. -/
def tick (p : Proc6502) (the_bus : SimpleBus) :
    Except String (Proc6502 × SimpleBus × Address × Bool) :=
  let p1 := { p with total_cycles := p.total_cycles + 1 }
  let p2 := if p1.operation_stream.isEmpty then
              { p1 with operation_stream := [FetchOpcode] }
            else p1
  match p2.operation_stream with
  | [] => Except.error "removal from empty vec"
  | x :: rest =>
      match executeOp x { p2 with operation_stream := rest } the_bus with
      | Except.error e => Except.error e
      | Except.ok (p3, bus2) => Except.ok (p3, bus2, p3.pc, p3.at_break)

/-- Iterates `tick`, threading processor and bus; stops at the first panic. -/
def runTicks (n : Nat) (p : Proc6502) (bus : SimpleBus) :
    Except String (Proc6502 × SimpleBus) :=
  match n with
  | 0 => Except.ok (p, bus)
  | n + 1 =>
      match tick p bus with
      | Except.error e => Except.error e
      | Except.ok (p2, bus2, _, _) => runTicks n p2 bus2

/-- Reads device number `i` of a bus directly through its `do_read` (used to
observe write fan-out per device). -/
def readDeviceAt (bus : SimpleBus) (i : Nat) (address : Address) :
    Except String Data :=
  match bus.registered[i]? with
  | some d => d.do_read address
  | none => Except.error "no device at index"

/-- Sanity: the opcodes inserted into the instruction table are pairwise
distinct, so association-list lookup and Rust `HashMap` lookup agree. -/
theorem map_o_instructions_keys_nodup :
    (map_o_instructions.map Prod.fst).Nodup := by decide

/-- A full-range memory image whose only written cells are addresses `0xFFFC`
and `0xFFFD`, holding `0x00` and `0x02` (every other address reads 0). -/
def imageFFFC : Memory :=
  { lower_bound := 0x0000
    upper_bound := 0xFFFF
    mem := fun k => if k = 0xFFFD then some 0x02 else
                    if k = 0xFFFC then some 0x00 else none }

/-- A bus carrying only `imageFFFC`. -/
def busFFFC : SimpleBus := { registered := [Device.mem imageFFFC] }

/-- A full-range memory image holding `0x00` at `0x0FFC` and `0x02` at
`0x0FFD` (the boot vector location the constructor actually uses, as written
by `tests/processor_tests.rs` and `src/main.rs`). -/
def image0FFC : Memory :=
  { lower_bound := 0x0000
    upper_bound := 0xFFFF
    mem := fun k => if k = 0x0FFD then some 0x02 else
                    if k = 0x0FFC then some 0x00 else none }

/-- A bus carrying only `image0FFC`. -/
def bus0FFC : SimpleBus := { registered := [Device.mem image0FFC] }

/-- A scratch processor state: every register zero, empty queue, empty
instruction table.  Test fixtures below override individual fields. -/
def baseProc : Proc6502 :=
  { pc := 0
    x := 0
    y := 0
    a := 0
    internal_address := 0
    internal_operand := 0
    at_break := false
    overflow := false
    carry := false
    status := 0
    operation_stream := []
    instructions := []
    total_cycles := 0
    boot_cycles := 0 }

/-- A bus with no registered devices. -/
def emptyBus : SimpleBus := { registered := [] }

/-- C1 (stated): the boot micro-sequence with PC at `0xFFFC`, so any image
mapping `0xFFFC, 0xFFFD` to `0x00, 0x02` boots to `PC = 0x0200` in 3 ticks. -/
theorem c1_counterexample :
    SimpleBus.read busFFFC 0xFFFC = Except.ok 0x00 ∧
    SimpleBus.read busFFFC 0xFFFD = Except.ok 0x02 ∧
    Except.map (fun r => r.1.pc) (runTicks 3 create6502 busFFFC) =
      Except.ok 0x0000 ∧
    (0x0000 : Nat) ≠ 0x0200 := by
  refine ⟨rfl, rfl, rfl, by decide⟩

/-- C1 (amended): the constructor primes `[FetchAddrLo, FetchAddrHi,
JumpToAddress]` with PC preset to the boot address `0x0FFC`, so every memory
image mapping `0x0FFC, 0x0FFD` to `0x00, 0x02` reaches `PC = 0x0200` after
exactly 3 ticks. -/
theorem c1_boot_sequence_0FFC :
    create6502.operation_stream = [FetchAddrLo, FetchAddrHi, JumpToAddress] ∧
    create6502.pc = 0x0FFC ∧
    ∀ (bus : SimpleBus),
      bus.read 0x0FFC = Except.ok 0x00 →
      bus.read 0x0FFD = Except.ok 0x02 →
      Except.map (fun r => r.1.pc) (runTicks 3 create6502 bus) =
        Except.ok 0x0200 := by
  refine ⟨rfl, rfl, ?_⟩
  intro bus h1 h2
  simp [runTicks, tick, executeOp, create6502, h1, h2, Except.map]
  decide

/-- Fixture for C2: a processor about to execute the fetch prefix of
`ZeroPageIndexed X` with `X = 0x01`, its instruction stream holding the
zero-page base byte `0xFF` at `PC = 0x0300`. -/
def zpProc : Proc6502 :=
  { baseProc with
    x := 0x01
    pc := 0x0300
    operation_stream := [FetchZeroPageAddr, IncrementAddressByReg X] }

/-- Fixture for C2: memory image holding `0xFF` at address `0x0300`. -/
def zpBus : SimpleBus :=
  { registered := [Device.mem
      { lower_bound := 0x0000
        upper_bound := 0xFFFF
        mem := fun k => if k = 0x0300 then some 0xFF else none }] }

/-- C2: with zero-page base `0xFF` and `X = 0x01` the `IncrementAddressByReg`
micro-op carries into the high byte, producing `InternalAddress = 0x0100`
rather than the wrapped `(0xFF + 0x01) % 256 = 0x0000` that the claim (and the
addressing-mode comment in `src/processor.rs`) requires. -/
theorem c2_zero_page_index_carries :
    fetch_operations_for_mode (ZeroPageIndexed X) =
      [FetchZeroPageAddr, IncrementAddressByReg X] ∧
    lookupInstruction map_o_instructions 0x95 = some
      { mnemonic := "STA"
        operations := [FetchZeroPageAddr, IncrementAddressByReg X,
                       WriteToAddress A InternalAddress]
        addressing := ZeroPageIndexed X } ∧
    Except.map (fun r => r.1.internal_address) (runTicks 2 zpProc zpBus) =
      Except.ok 0x0100 ∧
    (0xFF + 0x01) % 256 = 0x0000 ∧ (0x0100 : Nat) ≠ 0x0000 := by
  refine ⟨rfl, rfl, rfl, by decide, by decide⟩

/-- Fixture for C3: a processor whose next micro-op is
`IncrementPCBySignedOperand`. -/
def procIncPC : Proc6502 :=
  { baseProc with
    pc := 0x1234
    total_cycles := 10
    operation_stream := [IncrementPCBySignedOperand] }

/-- Fixture for C3: a processor whose next micro-op is `ReadAddressLo`. -/
def procReadLo : Proc6502 :=
  { baseProc with
    pc := 0x1234
    total_cycles := 10
    operation_stream := [ReadAddressLo] }

/-- Fixture for C3: a processor whose next micro-op is `ReadAddressHi`. -/
def procReadHi : Proc6502 :=
  { baseProc with
    pc := 0x1234
    total_cycles := 10
    operation_stream := [ReadAddressHi] }

/-- Fixture for C3: a processor whose next micro-op is an unimplemented ALU
`ComputeAndStore` with the given function selector. -/
def procAlu (f : Function) : Proc6502 :=
  { baseProc with operation_stream := [ComputeAndStore A A f] }

/-- Fixture for C3: a processor whose next micro-op is the unimplemented
`CompareToRegister`. -/
def procCmpReg : Proc6502 :=
  { baseProc with operation_stream := [CompareToRegister InternalOperand Y] }

/-- C3: the unimplemented ALU functions and `CompareToRegister` do surface a
fatal error (the `todo!` panics), but the three Relative-mode micro-ops
`IncrementPCBySignedOperand`, `ReadAddressLo`, `ReadAddressHi` silently no-op:
`tick` returns `ok` with every register unchanged (only the cycle counter and
queue move), contradicting the claim that no such case silently no-ops. -/
theorem c3_silent_noops_and_fatal_todos :
    tick procIncPC emptyBus = Except.ok
      ({ procIncPC with total_cycles := 11, operation_stream := [] },
       emptyBus, 0x1234, false) ∧
    tick procReadLo emptyBus = Except.ok
      ({ procReadLo with total_cycles := 11, operation_stream := [] },
       emptyBus, 0x1234, false) ∧
    tick procReadHi emptyBus = Except.ok
      ({ procReadHi with total_cycles := 11, operation_stream := [] },
       emptyBus, 0x1234, false) ∧
    tick (procAlu OR) emptyBus = Except.error "not yet implemented" ∧
    tick (procAlu AND) emptyBus = Except.error "not yet implemented" ∧
    tick (procAlu EOR) emptyBus = Except.error "not yet implemented" ∧
    tick (procAlu COMPARE) emptyBus = Except.error "not yet implemented" ∧
    tick (procAlu SubtractWithBorrow) emptyBus =
      Except.error "not yet implemented" ∧
    tick procCmpReg emptyBus = Except.error "not yet implemented" :=
  ⟨by rfl, by rfl, by rfl, rfl, rfl, rfl, rfl, rfl, rfl⟩

/-- Helper: `set_reg` never touches the total-cycle counter. -/
theorem set_reg_total_cycles (p : Proc6502) (reg : DataRegister) (v : Data) :
    (set_reg p reg v).total_cycles = p.total_cycles := by
  cases reg <;> rfl

/-- Helper: no micro-op arm of the tick match touches the total-cycle
counter. -/
theorem executeOp_preserves_cycles (x : InternalOperations) (p : Proc6502)
    (bus : SimpleBus) (out : Proc6502 × SimpleBus)
    (h : executeOp x p bus = Except.ok out) :
    out.1.total_cycles = p.total_cycles := by
  cases x <;> simp only [executeOp] at h <;> (try split at h) <;>
    (try split at h) <;> (try exact Except.noConfusion h) <;>
    (injection h with h; subst h; simp [set_reg_total_cycles])

/-- Helper: a tick on an empty queue enqueues one `FetchOpcode`, dequeues it,
executes it, and wraps the result with the returned `(pc, at_break)` pair. -/
theorem tick_stream_empty (p : Proc6502) (bus : SimpleBus)
    (hs : p.operation_stream = []) :
    tick p bus = Except.map (fun r => (r.1, r.2, r.1.pc, r.1.at_break))
      (executeOp FetchOpcode
        { p with total_cycles := p.total_cycles + 1, operation_stream := [] }
        bus) := by
  cases hE : executeOp FetchOpcode
      { p with total_cycles := p.total_cycles + 1, operation_stream := [] }
      bus with
  | error e => simp [tick, hs, hE, Except.map]
  | ok r =>
      obtain ⟨p3, bus2⟩ := r
      simp [tick, hs, hE, Except.map]

/-- Helper: a tick on a non-empty queue dequeues exactly the front micro-op,
executes it, and wraps the result with the returned `(pc, at_break)` pair. -/
theorem tick_stream_cons (p : Proc6502) (bus : SimpleBus)
    (x : InternalOperations) (rest : List InternalOperations)
    (hs : p.operation_stream = x :: rest) :
    tick p bus = Except.map (fun r => (r.1, r.2, r.1.pc, r.1.at_break))
      (executeOp x
        { p with total_cycles := p.total_cycles + 1, operation_stream := rest }
        bus) := by
  cases hE : executeOp x
      { p with total_cycles := p.total_cycles + 1, operation_stream := rest }
      bus with
  | error e => simp [tick, hs, hE, Except.map]
  | ok r =>
      obtain ⟨p3, bus2⟩ := r
      simp [tick, hs, hE, Except.map]

/-- C4: every tick bumps the total-cycle counter by exactly 1 and returns the
current `(PC, halted)` pair; a `FetchOpcode` is enqueued exactly when the
queue starts empty; and exactly the front micro-op is dequeued and executed. -/
theorem c4_tick_contract (p : Proc6502) (bus : SimpleBus) :
    (∀ out, tick p bus = Except.ok out →
       out.1.total_cycles = p.total_cycles + 1 ∧
       out.2.2 = (out.1.pc, out.1.at_break)) ∧
    (p.operation_stream = [] →
       tick p bus = Except.map (fun r => (r.1, r.2, r.1.pc, r.1.at_break))
         (executeOp FetchOpcode
           { p with total_cycles := p.total_cycles + 1, operation_stream := [] }
           bus)) ∧
    (∀ x rest, p.operation_stream = x :: rest →
       tick p bus = Except.map (fun r => (r.1, r.2, r.1.pc, r.1.at_break))
         (executeOp x
           { p with total_cycles := p.total_cycles + 1, operation_stream := rest }
           bus)) := by
  refine ⟨?_, fun hs => tick_stream_empty p bus hs,
          fun x rest hs => tick_stream_cons p bus x rest hs⟩
  intro out h
  rcases hs : p.operation_stream with _ | ⟨x, rest⟩
  · rw [tick_stream_empty p bus hs] at h
    cases hE : executeOp FetchOpcode
        { p with total_cycles := p.total_cycles + 1, operation_stream := [] }
        bus with
    | error e => rw [hE] at h; exact Except.noConfusion h
    | ok r =>
        rw [hE] at h
        injection h with h
        subst h
        have hc := executeOp_preserves_cycles _ _ _ _ hE
        simpa using hc
  · rw [tick_stream_cons p bus x rest hs] at h
    cases hE : executeOp x
        { p with total_cycles := p.total_cycles + 1, operation_stream := rest }
        bus with
    | error e => rw [hE] at h; exact Except.noConfusion h
    | ok r =>
        rw [hE] at h
        injection h with h
        subst h
        have hc := executeOp_preserves_cycles _ _ _ _ hE
        simpa using hc

/-- Fixture for the C4 witness: queue holding a single `NOP`. -/
def procNop : Proc6502 := { baseProc with operation_stream := [NOP] }

/-- The tick result of `procNop` against the empty bus. -/
def nopOut : Proc6502 × SimpleBus × Address × Bool :=
  ({ procNop with total_cycles := 1, operation_stream := [] }, emptyBus, 0, false)

/-- Witness for C4 at concrete inputs. -/
theorem c4_tick_contract_witness :
    (nopOut.1.total_cycles = procNop.total_cycles + 1 ∧
     nopOut.2.2 = (nopOut.1.pc, nopOut.1.at_break)) ∧
    tick baseProc emptyBus = Except.map (fun r => (r.1, r.2, r.1.pc, r.1.at_break))
      (executeOp FetchOpcode
        { baseProc with total_cycles := baseProc.total_cycles + 1,
                        operation_stream := [] } emptyBus) ∧
    tick procNop emptyBus = Except.map (fun r => (r.1, r.2, r.1.pc, r.1.at_break))
      (executeOp NOP
        { procNop with total_cycles := procNop.total_cycles + 1,
                       operation_stream := [] } emptyBus) :=
  ⟨(c4_tick_contract procNop emptyBus).1 nopOut (by rfl),
   (c4_tick_contract baseProc emptyBus).2.1 rfl,
   (c4_tick_contract procNop emptyBus).2.2 NOP [] rfl⟩

/-- C5: with `FetchOpcode` at the queue front and the bus yielding `opcode` at
PC, an opcode absent from the table makes tick fail with the decode panic,
while a present opcode advances PC by 1 and enqueues the pre-built micro-op
list of its instruction. -/
theorem c5_fetch_opcode_decode (p : Proc6502) (bus : SimpleBus) (opcode : Nat)
    (rest : List InternalOperations)
    (hs : p.operation_stream = FetchOpcode :: rest)
    (hr : bus.read p.pc = Except.ok opcode) :
    (lookupInstruction p.instructions opcode = none →
       tick p bus = Except.error "No definition for opcode") ∧
    (∀ instruction, lookupInstruction p.instructions opcode = some instruction →
       tick p bus = Except.ok
         ({ p with total_cycles := p.total_cycles + 1
                   operation_stream := rest ++ instruction.operations
                   pc := (p.pc + 1) % 65536 },
          bus, (p.pc + 1) % 65536, p.at_break)) := by
  rw [tick_stream_cons p bus FetchOpcode rest hs]
  constructor
  · intro hl
    simp [executeOp, hr, hl, Except.map]
  · intro instruction hl
    simp [executeOp, hr, hl, Except.map]

/-- The one-entry instruction table of the C5 witness. -/
def nopInstruction : Instruction :=
  { mnemonic := "NOP", operations := [NOP], addressing := Implied }

/-- Fixture for the C5 witness: about to fetch at `0x0200` with a table that
only defines opcode `0xEA`. -/
def decProc : Proc6502 :=
  { baseProc with
    pc := 0x0200
    operation_stream := [FetchOpcode]
    instructions := [(0xEA, nopInstruction)] }

/-- Fixture for the C5 witness: instruction stream holding the unknown opcode
`0x00` at `0x0200`. -/
def busUnknownOp : SimpleBus :=
  { registered := [Device.mem
      { lower_bound := 0x0000
        upper_bound := 0xFFFF
        mem := fun k => if k = 0x0200 then some 0x00 else none }] }

/-- Fixture for the C5 witness: instruction stream holding the known opcode
`0xEA` at `0x0200`. -/
def busKnownOp : SimpleBus :=
  { registered := [Device.mem
      { lower_bound := 0x0000
        upper_bound := 0xFFFF
        mem := fun k => if k = 0x0200 then some 0xEA else none }] }

/-- Witness for C5 at concrete inputs: unknown opcode errors, known opcode
decodes. -/
theorem c5_fetch_opcode_decode_witness :
    tick decProc busUnknownOp = Except.error "No definition for opcode" ∧
    tick decProc busKnownOp = Except.ok
      ({ decProc with total_cycles := 1, operation_stream := [NOP],
                      pc := 0x0201 },
       busKnownOp, 0x0201, false) :=
  ⟨(c5_fetch_opcode_decode decProc busUnknownOp 0x00 [] rfl rfl).1 rfl,
   (c5_fetch_opcode_decode decProc busKnownOp 0xEA [] rfl rfl).2
     nopInstruction rfl⟩

/-- C6: for every prior `InternalAddress`, running the Absolute fetch prefix
over instruction-stream bytes `0x34, 0x12` leaves `InternalAddress = 0x1234`:
the two bytes are rebuilt by overwrite-with-masking, never accumulated. -/
theorem c6_absolute_prefix_overwrites (p : Proc6502) (bus : SimpleBus)
    (rest : List InternalOperations)
    (hs : p.operation_stream = FetchAddrLo :: FetchAddrHi :: rest)
    (h1 : bus.read p.pc = Except.ok 0x34)
    (h2 : bus.read ((p.pc + 1) % 65536) = Except.ok 0x12) :
    Except.map (fun r => r.1.internal_address) (runTicks 2 p bus) =
      Except.ok 0x1234 := by
  simp [runTicks, tick, executeOp, hs, h1, h2, Except.map]
  decide

/-- Fixture for the C6 witness: stale `InternalAddress = 0xABCD`, queue
holding the Absolute fetch prefix, PC at `0x0400`. -/
def absProc : Proc6502 :=
  { baseProc with
    pc := 0x0400
    internal_address := 0xABCD
    operation_stream := [FetchAddrLo, FetchAddrHi] }

/-- Fixture for the C6 witness: bytes `0x34, 0x12` at `0x0400, 0x0401`. -/
def absBus : SimpleBus :=
  { registered := [Device.mem
      { lower_bound := 0x0000
        upper_bound := 0xFFFF
        mem := fun k => if k = 0x0400 then some 0x34 else
                        if k = 0x0401 then some 0x12 else none }] }

/-- Witness for C6 at concrete inputs. -/
theorem c6_absolute_prefix_overwrites_witness :
    Except.map (fun r => r.1.internal_address) (runTicks 2 absProc absBus) =
      Except.ok 0x1234 :=
  c6_absolute_prefix_overwrites absProc absBus [] rfl rfl rfl

/-- C7: on a Memory device, writing then reading any in-range address returns
the written byte, and reading a never-written in-range offset returns 0. -/
theorem c7_memory_round_trip (m : Memory) (a v : Nat)
    (h1 : m.lower_bound ≤ a) (_h2 : a ≤ m.upper_bound) :
    ((m.do_write a v).bind fun m2 => m2.do_read a) = Except.ok v ∧
    (m.mem (a - m.lower_bound) = none → m.do_read a = Except.ok 0) := by
  have hnl : ¬ a < m.lower_bound := Nat.not_lt.mpr h1
  constructor
  · simp [Memory.do_write, Memory.do_read, hnl, Except.bind]
  · intro h0
    simp [Memory.do_read, hnl, h0]

/-- Witness for C7 on a concrete memory with range `[0x10, 0x20]`. -/
theorem c7_memory_round_trip_witness :
    (((Memory.new 0x10 0x20).do_write 0x15 0xAB).bind
        fun m2 => m2.do_read 0x15) = Except.ok 0xAB ∧
    (Memory.new 0x10 0x20).do_read 0x15 = Except.ok 0 :=
  ⟨(c7_memory_round_trip (Memory.new 0x10 0x20) 0x15 0xAB (by decide)
      (by decide)).1,
   (c7_memory_round_trip (Memory.new 0x10 0x20) 0x15 0xAB (by decide)
      (by decide)).2 rfl⟩

/-- Helper: `SimpleBus::read` returns 0 when no registered device claims the
address. -/
theorem busReadLoop_no_match (devs : List Device) (a : Nat)
    (h : ∀ d ∈ devs, d.is_readable_for a = false) :
    busReadLoop devs a = Except.ok 0 := by
  induction devs with
  | nil => rfl
  | cons d rest ih =>
      have hd := h d (List.mem_cons_self d rest)
      simp only [busReadLoop, hd, Bool.false_eq_true, if_false]
      exact ih fun d2 hm => h d2 (List.mem_cons_of_mem d hm)

/-- Helper: `SimpleBus::write` leaves every device unchanged when no
registered device claims the address. -/
theorem busWriteLoop_no_match (devs : List Device) (a v : Nat)
    (h : ∀ d ∈ devs, d.is_writable_for a = false) :
    busWriteLoop devs a v = Except.ok devs := by
  induction devs with
  | nil => rfl
  | cons d rest ih =>
      have hd := h d (List.mem_cons_self d rest)
      have hrest := ih fun d2 hm => h d2 (List.mem_cons_of_mem d hm)
      simp only [busWriteLoop, hd, Bool.false_eq_true, if_false, hrest]

/-- Fixture for C8: device D1, a memory over `[0x0000, 0x00FF]` holding `0x11`
at offset `0x90`. -/
def d1Mem : Memory :=
  { lower_bound := 0x0000
    upper_bound := 0x00FF
    mem := fun k => if k = 0x90 then some 0x11 else none }

/-- Fixture for C8: device D2, a memory over `[0x0080, 0x01FF]` holding `0x22`
at offset `0x10` (so at address `0x90`, overlapping D1). -/
def d2Mem : Memory :=
  { lower_bound := 0x0080
    upper_bound := 0x01FF
    mem := fun k => if k = 0x10 then some 0x22 else none }

/-- Fixture for C8: the bus with the two overlapping devices registered in
order D1, D2. -/
def overlapBus : SimpleBus :=
  { registered := [Device.mem d1Mem, Device.mem d2Mem] }

/-- C8: reads dispatch first-match in registration order and miss to 0;
writes fan out to every matching device and miss to a no-op.  On the
overlapping pair D1, D2: a read of `0x90` returns D1's `0x11` (D2 holds
`0x22` there), and a write of `0xAB` to `0x90` lands in both devices. -/
theorem c8_read_first_match_write_fan_out :
    (∀ (bus : SimpleBus) (a : Nat),
       (∀ d ∈ bus.registered, d.is_readable_for a = false) →
       bus.read a = Except.ok 0) ∧
    (∀ (bus : SimpleBus) (a v : Nat),
       (∀ d ∈ bus.registered, d.is_writable_for a = false) →
       bus.write a v = Except.ok bus) ∧
    SimpleBus.read overlapBus 0x90 = Except.ok 0x11 ∧
    readDeviceAt overlapBus 1 0x90 = Except.ok 0x22 ∧
    ((SimpleBus.write overlapBus 0x90 0xAB).bind
        fun b2 => readDeviceAt b2 0 0x90) = Except.ok 0xAB ∧
    ((SimpleBus.write overlapBus 0x90 0xAB).bind
        fun b2 => readDeviceAt b2 1 0x90) = Except.ok 0xAB ∧
    ((SimpleBus.write overlapBus 0x90 0xAB).bind
        fun b2 => b2.read 0x90) = Except.ok 0xAB := by
  refine ⟨?_, ?_, rfl, rfl, rfl, rfl, rfl⟩
  · intro bus a h
    exact busReadLoop_no_match bus.registered a h
  · intro bus a v h
    simp [SimpleBus.write, busWriteLoop_no_match bus.registered a v h]

/-- Witness for C8 on the deviceless bus. -/
theorem c8_read_first_match_write_fan_out_witness :
    SimpleBus.read emptyBus 0x1234 = Except.ok 0 ∧
    SimpleBus.write emptyBus 0x1234 0x56 = Except.ok emptyBus :=
  ⟨c8_read_first_match_write_fan_out.1 emptyBus 0x1234 (by simp [emptyBus]),
   c8_read_first_match_write_fan_out.2.1 emptyBus 0x1234 0x56
     (by simp [emptyBus])⟩

/-- Helper: every bus-routed read succeeds — the scan only dispatches
`do_read` to a device whose `is_readable_for` holds, which for a memory
implies the offset subtraction cannot underflow, and the processor device is
never readable. -/
theorem busReadLoop_total (devs : List Device) (a : Nat) :
    ∃ x, busReadLoop devs a = Except.ok x := by
  induction devs with
  | nil => exact ⟨0, rfl⟩
  | cons d rest ih =>
      cases d with
      | cpu => simpa [busReadLoop, Device.is_readable_for] using ih
      | mem m =>
          by_cases hr : m.is_readable_for a = true
          · have hle : m.lower_bound ≤ a := by
              have := hr
              simp [Memory.is_readable_for] at this
              exact this.1
            refine ⟨(m.mem (a - m.lower_bound)).getD 0, ?_⟩
            simp [busReadLoop, Device.is_readable_for, hr, Device.do_read,
              Memory.do_read, Nat.not_lt.mpr hle]
          · simpa [busReadLoop, Device.is_readable_for, hr] using ih

/-- Helper: every bus-routed write succeeds, for the same guarding reason. -/
theorem busWriteLoop_total (devs : List Device) (a v : Nat) :
    ∃ ds, busWriteLoop devs a v = Except.ok ds := by
  induction devs with
  | nil => exact ⟨[], rfl⟩
  | cons d rest ih =>
      obtain ⟨ds2, hds2⟩ := ih
      cases d with
      | cpu =>
          exact ⟨Device.cpu :: ds2,
            by simp [busWriteLoop, Device.is_writable_for, hds2]⟩
      | mem m =>
          by_cases hw : m.is_writable_for a = true
          · have hle : m.lower_bound ≤ a := by
              have := hw
              simp [Memory.is_writable_for] at this
              exact this.1
            refine ⟨Device.mem { m with mem := fun k =>
              if k = a - m.lower_bound then some v else m.mem k } :: ds2, ?_⟩
            simp [busWriteLoop, Device.is_writable_for, hw, Device.do_write,
              Memory.do_write, Nat.not_lt.mpr hle, hds2]
          · exact ⟨Device.mem m :: ds2,
              by simp [busWriteLoop, Device.is_writable_for, hw, hds2]⟩

/-- C10: `Memory.do_read`/`do_write` compute the storage offset by an u16
subtraction with no upper-bound check, so an address below `lower_bound` hits
the underflow error branch; but `is_readable_for`/`is_writable_for` (the
guards `SimpleBus` dispatches through) require `lower_bound ≤ address`, so
every bus-routed read and write succeeds — the underflow branch is
unreachable through the bus. -/
theorem c10_underflow_unreachable_via_bus (m : Memory) (a v : Nat)
    (bus : SimpleBus) :
    (a < m.lower_bound →
       m.do_read a = Except.error "attempt to subtract with overflow" ∧
       m.do_write a v = Except.error "attempt to subtract with overflow") ∧
    ((Device.mem m).is_readable_for a = true → m.lower_bound ≤ a) ∧
    ((Device.mem m).is_writable_for a = true → m.lower_bound ≤ a) ∧
    (∃ x, bus.read a = Except.ok x) ∧
    (∃ b2, bus.write a v = Except.ok b2) := by
  refine ⟨?_, ?_, ?_, ?_, ?_⟩
  · intro hlt
    constructor
    · simp [Memory.do_read, hlt]
    · simp [Memory.do_write, hlt]
  · intro h
    simp [Device.is_readable_for, Memory.is_readable_for] at h
    exact h.1
  · intro h
    simp [Device.is_writable_for, Memory.is_writable_for] at h
    exact h.1
  · exact busReadLoop_total bus.registered a
  · obtain ⟨ds, hds⟩ := busWriteLoop_total bus.registered a v
    exact ⟨{ registered := ds }, by simp [SimpleBus.write, hds]⟩

/-- Witness for C10 on a concrete out-of-range access and a concrete bus. -/
theorem c10_underflow_unreachable_via_bus_witness :
    ((Memory.new 0x10 0x20).do_read 0x05 =
       Except.error "attempt to subtract with overflow" ∧
     (Memory.new 0x10 0x20).do_write 0x05 0x07 =
       Except.error "attempt to subtract with overflow") ∧
    (∃ x, SimpleBus.read overlapBus 0x05 = Except.ok x) ∧
    (∃ b2, SimpleBus.write overlapBus 0x05 0x07 = Except.ok b2) :=
  ⟨(c10_underflow_unreachable_via_bus (Memory.new 0x10 0x20) 0x05 0x07
      overlapBus).1 (by decide),
   (c10_underflow_unreachable_via_bus (Memory.new 0x10 0x20) 0x05 0x07
      overlapBus).2.2.2.1,
   (c10_underflow_unreachable_via_bus (Memory.new 0x10 0x20) 0x05 0x07
      overlapBus).2.2.2.2⟩

/-- Witness for C1 (amended) at the concrete boot image `bus0FFC`. -/
theorem c1_boot_sequence_0FFC_witness :
    Except.map (fun r => r.1.pc) (runTicks 3 create6502 bus0FFC) =
      Except.ok 0x0200 :=
  c1_boot_sequence_0FFC.2.2 bus0FFC (by rfl) (by rfl)

/-- C9: `boot_cycles` is the boot-sequence length 3; `get_user_cycles` is 0
immediately after construction, and still 0 after exactly 3 ticks that consume
the boot sequence without fetching an instruction. -/
theorem c9_user_cycles_baseline :
    create6502.boot_cycles = 3 ∧
    get_user_cycles create6502 = 0 ∧
    Except.map (fun r => get_user_cycles r.1) (runTicks 3 create6502 bus0FFC) =
      Except.ok 0 :=
  ⟨rfl, rfl, rfl⟩

end Sim6502
